import Mathlib

/-!
Shallow embedding of the semantic book recommender core
(`src/recommender.py` of krishna123-lang/semantic-book-recommender).

Modelling conventions:
* Python strings are Lean `String`s; `str.lower()` is `pyLower` below
  (character-wise `Char.toLower`, faithful on the ASCII range which the
  algorithms operate on).
* A pandas cell that may be NaN is an `Option String`; Python `str(cell)`
  renders a NaN cell as the string "nan" (`strOf`).
* Python floats are modelled as `ℚ`; `np.exp` is kept abstract as an explicit
  function parameter `expF : ℚ → ℚ` (the code applies it to `-distance / 10`).
* Exceptions raised by external collaborators (langdetect, the sentence
  transformer, the FAISS index) are modelled with `Except`/`Option` values fed
  to the translated functions; `recommender.py` itself installs no handler
  around the embedder or the index, so those errors flow through unchanged.
* FAISS `IndexFlatL2.search(q, k)` returns, for a query, the `k` (row id,
  distance) pairs sorted by ascending distance; when `k` exceeds `ntotal`
  the result is padded with id `-1` and a huge sentinel distance
  (`faissSearch` below, sentinel `PAD_DIST` standing in for `HUGE_VALF`).
* `DataFrame.iloc[i]` supports Python negative indexing (`ilocGet`).
-/

namespace BookRec

/-- One row of `books_metadata.csv` as loaded into `self.books_df`:
columns `title`, `authors`, `categories`, `description`. A `none` field
models a missing (NaN) cell. -/
structure BookRecord where
  title : Option String
  authors : Option String
  categories : Option String
  description : Option String
deriving Repr, DecidableEq

/-- Python `str(cell)` on a possibly-NaN pandas cell: NaN prints as "nan". -/
def strOf : Option String → String
  | some s => s
  | none => "nan"

/-- Python `str.lower()`: character-wise lowercasing (ASCII-faithful). -/
def pyLower (s : String) : String :=
  String.mk (s.toList.map Char.toLower)

/-- The `LANGUAGE_NAMES` dict of `recommender.py` (lines 20-29). -/
def LANGUAGE_NAMES : List (String × String) :=
  [("en", "English"), ("hi", "Hindi"), ("fr", "French"), ("de", "German"),
   ("es", "Spanish"), ("pt", "Portuguese"), ("it", "Italian"), ("nl", "Dutch"),
   ("ru", "Russian"), ("zh-cn", "Chinese"), ("zh-tw", "Chinese"), ("ja", "Japanese"),
   ("ko", "Korean"), ("ar", "Arabic"), ("tr", "Turkish"), ("pl", "Polish"),
   ("sv", "Swedish"), ("da", "Danish"), ("no", "Norwegian"), ("fi", "Finnish"),
   ("ta", "Tamil"), ("te", "Telugu"), ("ml", "Malayalam"), ("kn", "Kannada"),
   ("bn", "Bengali"), ("mr", "Marathi"), ("gu", "Gujarati"), ("pa", "Punjabi"),
   ("ur", "Urdu"), ("th", "Thai"), ("vi", "Vietnamese"), ("id", "Indonesian")]

/-- The `STOP_WORDS` set of `recommender.py` (lines 32-47). -/
def STOP_WORDS : List String :=
  ["a", "an", "the", "is", "are", "was", "were", "be", "been", "being",
   "have", "has", "had", "do", "does", "did", "will", "would", "could",
   "should", "may", "might", "shall", "can", "need", "dare", "ought",
   "used", "to", "of", "in", "for", "on", "with", "at", "by", "from",
   "as", "into", "through", "during", "before", "after", "above", "below",
   "between", "out", "off", "over", "under", "again", "further", "then",
   "once", "here", "there", "when", "where", "why", "how", "all", "both",
   "each", "few", "more", "most", "other", "some", "such", "no", "nor",
   "not", "only", "own", "same", "so", "than", "too", "very", "just",
   "about", "and", "but", "or", "if", "while", "that", "this", "it",
   "i", "me", "my", "we", "our", "you", "your", "he", "him", "his",
   "she", "her", "they", "them", "their", "what", "which", "who", "whom",
   "book", "story", "novel", "like", "want", "looking", "find", "recommend",
   "suggest", "give", "show", "tell", "read", "good", "best", "great"]

/-- Python `str.capitalize()`: first character uppercased, rest lowercased. -/
def pyCapitalize (s : String) : String :=
  match s.toList with
  | [] => ""
  | c :: cs => String.mk (c.toUpper :: cs.map Char.toLower)

/-- `detect_language` (lines 50-66). The outcome of the external
`langdetect.detect(text)` call is passed in: `.ok code` when the detector
returns `code`, `.error ()` when it (or its import) raises any exception.
On success the display name is `LANGUAGE_NAMES.get(code, code.capitalize())`;
on failure the fixed default `("en", "English")` is returned — the function
itself never raises. -/
def detect_language (detectRes : Except Unit String) : String × String :=
  match detectRes with
  | .ok code => (code, (LANGUAGE_NAMES.lookup code).getD (pyCapitalize code))
  | .error _ => ("en", "English")

/-- ASCII letter test, the character class of the regex `[a-zA-Z]`. -/
def isAsciiAlpha (c : Char) : Bool :=
  ( 'a' ≤ c && c ≤ 'z') || ( 'A' ≤ c && c ≤ 'Z')

/-- Split a character list into its maximal runs of ASCII letters
(accumulator holds the current run, reversed). `re.findall` with the
pattern `[a-zA-Z]{3,}` returns exactly the maximal alphabetic runs of
length at least 3, in order; the caller filters the length. -/
def alphaRunsAux : List Char → List Char → List (List Char)
  | [], acc => if acc.isEmpty then [] else [acc.reverse]
  | c :: cs, acc =>
    if isAsciiAlpha c then alphaRunsAux cs (c :: acc)
    else if acc.isEmpty then alphaRunsAux cs []
    else acc.reverse :: alphaRunsAux cs []

/-- The tokens `re.findall(r"[a-zA-Z]{3,}", text)` yields: maximal ASCII
alphabetic runs of length ≥ 3, in text order. -/
def tokens3 (text : String) : List String :=
  ((alphaRunsAux text.toList []).filter (fun r => 3 ≤ r.length)).map String.mk

/-- First-occurrence order of the distinct elements of `l`: the key order of
a Python `Counter` built from `l` (dict insertion order). -/
def firstOccs (l : List String) : List String :=
  l.foldl (fun acc w => if acc.contains w then acc else acc ++ [w]) []

/-- `Counter(l).most_common(n)` keys: distinct elements sorted by count
descending — Python's `sorted` is stable, so ties keep first-encountered
order, which the stable insertion sort reproduces. -/
def mostCommon (l : List String) (n : ℕ) : List String :=
  (List.insertionSort (fun a b => l.count b ≤ l.count a) (firstOccs l)).take n

/-- `extract_keywords` (lines 69-74): lowercase, tokenize into alphabetic
runs of length ≥ 3, drop stop words, return the `top_n` most frequent
remaining tokens (ties by first occurrence). -/
def extract_keywords (text : String) (top_n : ℕ) : List String :=
  let words := tokens3 (pyLower text)
  let meaningful := words.filter (fun w => !STOP_WORDS.contains w)
  mostCommon meaningful top_n

/-- Python's substring operator `p in s` on character lists. -/
def isSubstrL (p : List Char) : List Char → Bool
  | [] => p.isEmpty
  | c :: cs => p.isPrefixOf (c :: cs) || isSubstrL p cs

/-- Python's substring operator `p in s` for strings. -/
def pyIn (p s : String) : Bool := isSubstrL p.toList s.toList

/-- The `theme_keywords` table of `_generate_explanation` (lines 207-216),
in its Python dict insertion order. -/
def theme_keywords : List (String × List String) :=
  [("mystery", ["mystery", "detective", "crime", "murder", "investigation", "clue", "suspect"]),
   ("romance", ["love", "romance", "heart", "passion", "relationship", "romantic"]),
   ("adventure", ["adventure", "journey", "explore", "quest", "expedition", "discover"]),
   ("fantasy", ["magic", "dragon", "wizard", "fantasy", "mythical", "enchant", "realm"]),
   ("sci-fi", ["space", "future", "technology", "alien", "dystopia", "robot", "science"]),
   ("horror", ["horror", "fear", "ghost", "haunted", "terror", "dark", "nightmare"]),
   ("historical", ["history", "historical", "war", "ancient", "century", "kingdom", "empire"]),
   ("drama", ["emotional", "family", "life", "struggle", "human", "society", "moral"])]

/-- The structured explanation dict returned by `_generate_explanation`
(lines 227-238). -/
structure Explanation where
  common_keywords : List String
  query_keywords : List String
  book_keywords : List String
  category_match : Bool
  category_explanation : String
  match_level : String
  match_color : String
  match_desc : String
  themes : List String
  similarity_pct : String
deriving Repr, DecidableEq

/-- Rendering of the Python f-string `f"{s*100:.1f}%"` for the raw score
`s : ℚ`: one decimal digit of the percentage. Tie rounding is modelled as
round-half-up on the exact rational (Python rounds the nearest double
half-to-even; the difference only shows at exact decimal midpoints of the
double value). -/
def fmtPct (s : ℚ) : String :=
  let n : ℤ := round (s * 1000)
  s!"{n / 10}.{(n % 10).natAbs}%"

/-- `_generate_explanation` (lines 162-238), a pure function of the query,
its extracted keywords, the book row and the similarity score. -/
def generate_explanation (query : String) (query_keywords : List String)
    (book : BookRecord) (similarity_score : ℚ) : Explanation :=
  let description := pyLower (strOf book.description)
  let category := pyLower (strOf book.categories)
  let book_keywords := extract_keywords description 12
  let common_keywords := query_keywords.filter
    (fun kw => book_keywords.contains kw || pyIn kw description)
  let all_query_keywords := query_keywords.take 6
  let category_match := query_keywords.any (fun kw => pyIn kw category)
  let catsRaw := strOf book.categories
  let category_explanation :=
    if category_match then
      s!"The book\x27s category \x27{catsRaw}\x27 aligns with your search"
    else
      s!"While categorized as \x27{catsRaw}\x27, the themes match your query"
  let tier : String × String × String :=
    if similarity_score > 0.75 then
      ("Excellent", "#27ae60", "Very strong semantic alignment with your query")
    else if similarity_score > 0.55 then
      ("Good", "#f39c12", "Solid thematic connection to your search")
    else
      ("Fair", "#e74c3c", "Some thematic overlap detected")
  let combined_text := pyLower query ++ " " ++ description
  let themes0 := theme_keywords.foldl
    (fun acc p =>
      if 2 ≤ (p.2.filter (fun kw => pyIn kw combined_text)).length then
        acc ++ [pyCapitalize p.1]
      else acc) []
  let themes := if themes0.isEmpty then ["General Fiction"] else themes0
  { common_keywords := common_keywords.take 5
    query_keywords := all_query_keywords
    book_keywords := book_keywords.take 6
    category_match := category_match
    category_explanation := category_explanation
    match_level := tier.1
    match_color := tier.2.1
    match_desc := tier.2.2
    themes := themes.take 3
    similarity_pct := fmtPct similarity_score }

/-- Sentinel distance FAISS leaves in unfilled result slots when `k`
exceeds `ntotal` (`HUGE_VALF` in the C++ heap initialisation); modelled as
a rational larger than any real distance in play. -/
def PAD_DIST : ℚ := 2 ^ 128

/-- `IndexFlatL2.search(query_vec, k)` for a single query, given the list
`dists` of distances from the query vector to each stored vector in row
order: the `k` (row id, distance) pairs by ascending distance (ties kept in
row-scan order by the stable sort), padded with `(-1, PAD_DIST)` when `k`
exceeds the number of stored vectors. -/
def faissSearch (dists : List ℚ) (k : ℕ) : List (Int × ℚ) :=
  let pairs := (List.range dists.length).zip dists |>.map
    (fun p => ((p.1 : Int), p.2))
  let sorted := List.insertionSort (fun a b => a.2 ≤ b.2) pairs
  sorted.take k ++ List.replicate (k - sorted.length) ((-1 : Int), PAD_DIST)

/-- `books_df.iloc[i]` for an integer `i`: Python negative indexing counts
from the end; an index out of range raises `IndexError` (`none`). -/
def ilocGet (rows : List BookRecord) (i : Int) : Option BookRecord :=
  let j : Int := if i < 0 then (rows.length : Int) + i else i
  if 0 ≤ j then rows.get? j.toNat else none

/-- One element of the list `recommend_books` returns (lines 147-158). -/
structure Recommendation where
  rank : ℕ
  title : Option String
  authors : Option String
  categories : Option String
  description : Option String
  similarity_score : ℚ
  distance : ℚ
  language : String
  language_name : String
  explanation : Explanation
deriving Repr, DecidableEq

/-- The recommendation built for loop position `i` (0-based), book row
`book` and raw distance `d`: rank `i+1`, similarity `expF (-d / 10)`
(the code computes `float(np.exp(-distance / 10))`). -/
def mkRec (expF : ℚ → ℚ) (query : String) (lang : String × String)
    (query_keywords : List String) (i : ℕ) (book : BookRecord) (d : ℚ) :
    Recommendation :=
  let s := expF (-d / 10)
  { rank := i + 1
    title := book.title
    authors := book.authors
    categories := book.categories
    description := book.description
    similarity_score := s
    distance := d
    language := lang.1
    language_name := lang.2
    explanation := generate_explanation query query_keywords book s }

/-- The result-assembly loop of `recommend_books` (lines 135-158) over the
`(idx, distance)` pairs, starting at loop position `i`: each row id is
looked up with `iloc`; an out-of-range id raises (`none`), aborting the
whole call as the Python exception would. -/
def buildRecs (expF : ℚ → ℚ) (corpus : List BookRecord) (query : String)
    (lang : String × String) (query_keywords : List String) (i : ℕ) :
    List (Int × ℚ) → Option (List Recommendation)
  | [] => some []
  | (idx, d) :: rest =>
    match ilocGet corpus idx with
    | none => none
    | some book =>
      match buildRecs expF corpus query lang query_keywords (i + 1) rest with
      | none => none
      | some recs => some (mkRec expF query lang query_keywords i book d :: recs)

/-- `recommend_books` after a successful embed and index search: language
detection (never raises), FAISS `k`-nearest search on the row distances,
keyword extraction (`top_n` defaults to 8), result assembly. -/
def recommendPure (expF : ℚ → ℚ) (corpus : List BookRecord)
    (detectRes : Except Unit String) (query : String) (dists : List ℚ)
    (k : ℕ) : Option (List Recommendation) :=
  buildRecs expF corpus query (detect_language detectRes)
    (extract_keywords query 8) 0 (faissSearch dists k)

/-- `recommend_books` (lines 111-160) with its external calls made
explicit: `embedRes` is the outcome of `self.model.encode([query])` (an
embedding vector or a raised exception) and `indexF` maps the embedding to
the outcome of the index search (the per-row distance list, or a raised
exception). The function installs no handler: either failure propagates to
the caller as the unchanged underlying error. -/
def recommend_books (expF : ℚ → ℚ) (corpus : List BookRecord)
    (detectRes : Except Unit String) (embedRes : Except String (List ℚ))
    (indexF : List ℚ → Except String (List ℚ)) (query : String) (k : ℕ) :
    Except String (Option (List Recommendation)) :=
  match embedRes with
  | .error e => .error e
  | .ok emb =>
    match indexF emb with
    | .error e => .error e
    | .ok dists => .ok (recommendPure expF corpus detectRes query dists k)

/-- A compiled token of the modelled regex fragment: a literal character or
the `.` wildcard. -/
inductive RTok where
  | lit (c : Char)
  | dot
deriving Repr, DecidableEq

/-- The characters Python `re` treats specially (the set `re.escape`
quotes). -/
def REGEX_META : List Char :=
  [ '.', '^', '$', '*', '+', '?', '\x7b', '\x7d', '[', ']', '\\', '|', '(', ')']

/-- Fragment model of `re.compile` as used by `pandas.Series.str.contains`
(which treats its argument as a regex): a literal character compiles to
itself and `.` to the wildcard. Patterns using any other metacharacter are
outside the modelled fragment and map to `none`; for the patterns the
theorems below touch, `none` coincides with `re.error` (a lone `(` or `[`
is a Python regex syntax error). -/
def parsePat : List Char → Option (List RTok)
  | [] => some []
  | c :: cs =>
    if c = '.' then (parsePat cs).map (RTok.dot :: ·)
    else if c ∈ REGEX_META then none
    else (parsePat cs).map (RTok.lit c :: ·)

/-- Does the token list match a prefix of `s`? (`.` matches any character
except a newline, as in `re` without `DOTALL`.) -/
def matchToksAt : List RTok → List Char → Bool
  | [], _ => true
  | _ :: _, [] => false
  | t :: ts, c :: cs =>
    (match t with
     | .lit a => a == c
     | .dot => c != '\n') && matchToksAt ts cs

/-- `re.search` semantics for the fragment: the tokens match at some
position of `s`. -/
def reSearch (toks : List RTok) : List Char → Bool
  | [] => matchToksAt toks []
  | c :: cs => matchToksAt toks (c :: cs) || reSearch toks cs

/-- `search_by_title` (lines 240-261):
`books_df["title"].str.lower().str.contains(title_query.lower(), na=False)`
— the lowered query is used as a regex pattern over the lowered titles, a
NaN title counts as no match (`na=False`); the matching rows are collected
in corpus scan order and truncated to 5. An invalid pattern makes
`str.contains` raise `re.error` (`.error ()`). -/
def search_by_title (corpus : List BookRecord) (title_query : String) :
    Except Unit (List BookRecord) :=
  match parsePat (pyLower title_query).toList with
  | none => .error ()
  | some toks =>
    .ok (((corpus.filter (fun b =>
        match b.title with
        | none => false
        | some t => reSearch toks (pyLower t).toList))).take 5)

/-- Modelled from the spec's words for comparison with `search_by_title`:
the books whose title contains the query as a case-insensitive **literal**
substring (a missing title never matches), in corpus scan order, truncated
to at most 5 records. -/
def literalTitleSearch (corpus : List BookRecord) (q : String) :
    List BookRecord :=
  (corpus.filter (fun b =>
      match b.title with
      | none => false
      | some t => pyIn (pyLower q) (pyLower t))).take 5

/-- A concrete one-book run of the pipeline (identity in place of `np.exp`,
one stored vector at distance 2, `k = 1`), used to instantiate the
similarity-score theorem. -/
def recsC3 : List Recommendation :=
  (recommendPure (fun d => d) [⟨some "A", none, none, none⟩] (.error ())
    "a gripping tale" [2] 1).getD []

/-! ### Helper lemmas -/

theorem matchToksAt_lits (p : List Char) :
    ∀ s : List Char, matchToksAt (p.map RTok.lit) s = p.isPrefixOf s := by
  induction p with
  | nil => intro s; cases s <;> rfl
  | cons c cs ih =>
    intro s
    cases s with
    | nil => rfl
    | cons d ds => simp [matchToksAt, List.isPrefixOf, ih]

theorem reSearch_lits (p : List Char) :
    ∀ s : List Char, reSearch (p.map RTok.lit) s = isSubstrL p s := by
  intro s
  induction s with
  | nil =>
    cases p <;> simp [reSearch, matchToksAt, isSubstrL, List.isEmpty]
  | cons c cs ih =>
    simp [reSearch, isSubstrL, matchToksAt_lits, ih]

theorem parsePat_noMeta :
    ∀ cs : List Char, (∀ c ∈ cs, c ∉ REGEX_META) →
      parsePat cs = some (cs.map RTok.lit) := by
  intro cs
  induction cs with
  | nil => intro _; rfl
  | cons c cs ih =>
    intro h
    have hc : c ∉ REGEX_META := h c (List.mem_cons_self c cs)
    have hdot : c ≠ '.' := by
      intro he; exact hc (he ▸ (by decide : ('.' : Char) ∈ REGEX_META))
    have hrest := ih (fun x hx => h x (List.mem_cons_of_mem c hx))
    simp [parsePat, hdot, hc, hrest]

theorem search_by_title_noMeta (corpus : List BookRecord) (q : String)
    (h : ∀ c ∈ (pyLower q).toList, c ∉ REGEX_META) :
    search_by_title corpus q = .ok (literalTitleSearch corpus q) := by
  unfold search_by_title literalTitleSearch
  rw [parsePat_noMeta _ h]
  dsimp only
  congr 1
  congr 1
  apply List.filter_congr
  intro b _
  cases b.title with
  | none => rfl
  | some t => simp [reSearch_lits, pyIn]

theorem ilocGet_isSome_of_range (corpus : List BookRecord) (i : Int)
    (h0 : 0 ≤ i) (h1 : i < (corpus.length : Int)) :
    (ilocGet corpus i).isSome := by
  unfold ilocGet
  have hneg : ¬ i < 0 := not_lt.mpr h0
  simp only [hneg, if_false, h0, if_true]
  have hlt : i.toNat < corpus.length := (Int.toNat_lt h0).mpr h1
  rw [List.get?_eq_get hlt]
  rfl

theorem ilocGet_neg_one_isSome (corpus : List BookRecord)
    (h : corpus ≠ []) : (ilocGet corpus (-1)).isSome := by
  unfold ilocGet
  have hlen : 1 ≤ corpus.length := List.length_pos.mpr h
  have hneg : (-1 : Int) < 0 := by decide
  simp only [hneg, if_true]
  have h0 : (0 : Int) ≤ (corpus.length : Int) + (-1) := by
    omega
  simp only [h0, if_true]
  have hlt : ((corpus.length : Int) + (-1)).toNat < corpus.length := by
    omega
  rw [List.get?_eq_get hlt]
  rfl

theorem buildRecs_shape (expF : ℚ → ℚ) (corpus : List BookRecord)
    (query : String) (lang : String × String) (qkw : List String) :
    ∀ (ps : List (Int × ℚ)) (i : ℕ),
      (∀ p ∈ ps, (ilocGet corpus p.1).isSome) →
      ∃ recs, buildRecs expF corpus query lang qkw i ps = some recs ∧
        recs.length = ps.length ∧
        recs.map Recommendation.rank = List.range' (i + 1) ps.length ∧
        recs.map Recommendation.distance = ps.map Prod.snd := by
  intro ps
  induction ps with
  | nil =>
    intro i _
    exact ⟨[], rfl, rfl, rfl, rfl⟩
  | cons p rest ih =>
    intro i h
    obtain ⟨idx, d⟩ := p
    have hbook : (ilocGet corpus idx).isSome :=
      h (idx, d) (List.mem_cons_self _ _)
    obtain ⟨book, hbeq⟩ := Option.isSome_iff_exists.mp hbook
    obtain ⟨recs, hrecs, hlen, hrank, hdist⟩ :=
      ih (i + 1) (fun q hq => h q (List.mem_cons_of_mem _ hq))
    refine ⟨mkRec expF query lang qkw i book d :: recs, ?_, ?_, ?_, ?_⟩
    · unfold buildRecs
      rw [hbeq, hrecs]
    · simp [hlen]
    · simp only [List.map_cons, List.length_cons, List.range'_succ, hrank]
      rfl
    · simp only [List.map_cons, hdist]
      rfl

theorem buildRecs_sim (expF : ℚ → ℚ) (corpus : List BookRecord)
    (query : String) (lang : String × String) (qkw : List String) :
    ∀ (ps : List (Int × ℚ)) (i : ℕ) (recs : List Recommendation),
      buildRecs expF corpus query lang qkw i ps = some recs →
      ∀ r ∈ recs, r.similarity_score = expF (-r.distance / 10) := by
  intro ps
  induction ps with
  | nil =>
    intro i recs h r hr
    unfold buildRecs at h
    cases h
    cases hr
  | cons p rest ih =>
    intro i recs h r hr
    obtain ⟨idx, d⟩ := p
    unfold buildRecs at h
    cases hbook : ilocGet corpus idx with
    | none => rw [hbook] at h; cases h
    | some book =>
      rw [hbook] at h
      cases hrest : buildRecs expF corpus query lang qkw (i + 1) rest with
      | none => rw [hrest] at h; cases h
      | some recs0 =>
        rw [hrest] at h
        cases h
        rcases List.mem_cons.mp hr with heq | hmem
        · subst heq; rfl
        · exact ih (i + 1) recs0 hrest r hmem

/-- The enumerated `(row id, distance)` pairs underlying `faissSearch`. -/
def enumPairs (dists : List ℚ) : List (Int × ℚ) :=
  (List.range dists.length).zip dists |>.map (fun p => ((p.1 : Int), p.2))

theorem faissSearch_eq (dists : List ℚ) (k : ℕ) :
    faissSearch dists k =
      (List.insertionSort (fun a b => a.2 ≤ b.2) (enumPairs dists)).take k ++
        List.replicate
          (k - (List.insertionSort (fun a b => a.2 ≤ b.2) (enumPairs dists)).length)
          ((-1 : Int), PAD_DIST) := rfl

theorem enumPairs_length (dists : List ℚ) :
    (enumPairs dists).length = dists.length := by
  simp [enumPairs]

theorem mem_enumPairs (dists : List ℚ) (p : Int × ℚ)
    (h : p ∈ enumPairs dists) : 0 ≤ p.1 ∧ p.1 < (dists.length : Int) := by
  unfold enumPairs at h
  obtain ⟨q, hq, hfq⟩ := List.mem_map.mp h
  obtain ⟨h1, -⟩ := List.of_mem_zip hq
  have hlt := List.mem_range.mp h1
  subst hfq
  refine ⟨Int.ofNat_nonneg q.1, ?_⟩
  show (q.1 : Int) < (dists.length : Int)
  exact_mod_cast hlt

theorem sortedPairs_length (dists : List ℚ) :
    (List.insertionSort (fun a b => a.2 ≤ b.2) (enumPairs dists)).length =
      dists.length := by
  rw [(List.perm_insertionSort _ (enumPairs dists)).length_eq,
    enumPairs_length]

theorem faissSearch_length (dists : List ℚ) (k : ℕ) :
    (faissSearch dists k).length = k := by
  rw [faissSearch_eq, List.length_append, List.length_take,
    List.length_replicate, sortedPairs_length]
  omega

theorem mem_faissSearch (dists : List ℚ) (k : ℕ) (p : Int × ℚ)
    (h : p ∈ faissSearch dists k) :
    (0 ≤ p.1 ∧ p.1 < (dists.length : Int)) ∨ p = ((-1 : Int), PAD_DIST) := by
  rw [faissSearch_eq] at h
  rcases List.mem_append.mp h with h1 | h2
  · left
    have hs : p ∈ List.insertionSort (fun a b => a.2 ≤ b.2) (enumPairs dists) :=
      (List.take_sublist k _).mem h1
    exact mem_enumPairs dists p
      ((List.perm_insertionSort _ (enumPairs dists)).mem_iff.mp hs)
  · right
    exact (List.mem_replicate.mp h2).2

theorem mem_faissSearch_of_le (dists : List ℚ) (k : ℕ)
    (hk : k ≤ dists.length) (p : Int × ℚ) (h : p ∈ faissSearch dists k) :
    0 ≤ p.1 ∧ p.1 < (dists.length : Int) := by
  rw [faissSearch_eq] at h
  have hz : k - (List.insertionSort (fun a b => a.2 ≤ b.2)
      (enumPairs dists)).length = 0 := by
    rw [sortedPairs_length]; omega
  rw [hz] at h
  simp only [List.replicate_zero, List.append_nil] at h
  have hs : p ∈ List.insertionSort (fun a b => a.2 ≤ b.2) (enumPairs dists) :=
    (List.take_sublist k _).mem h
  exact mem_enumPairs dists p
    ((List.perm_insertionSort _ (enumPairs dists)).mem_iff.mp hs)

theorem faissSearch_snd_pairwise (dists : List ℚ) (k : ℕ)
    (hk : k ≤ dists.length) :
    ((faissSearch dists k).map Prod.snd).Pairwise (· ≤ ·) := by
  haveI : IsTotal (Int × ℚ) (fun a b => a.2 ≤ b.2) :=
    ⟨fun a b => le_total a.2 b.2⟩
  haveI : IsTrans (Int × ℚ) (fun a b => a.2 ≤ b.2) :=
    ⟨fun _ _ _ hab hbc => le_trans hab hbc⟩
  rw [faissSearch_eq]
  have hz : k - (List.insertionSort (fun a b => a.2 ≤ b.2)
      (enumPairs dists)).length = 0 := by
    rw [sortedPairs_length]; omega
  rw [hz]
  simp only [List.replicate_zero, List.append_nil]
  have hsorted : List.Pairwise (fun a b : Int × ℚ => a.2 ≤ b.2)
      (List.insertionSort (fun a b => a.2 ≤ b.2) (enumPairs dists)) :=
    List.sorted_insertionSort _ _
  exact List.pairwise_map.mpr
    (List.Pairwise.sublist (List.take_sublist k _) hsorted)

theorem mem_foldl_firstOccs :
    ∀ (l acc : List String) (x : String),
      x ∈ l.foldl (fun acc w => if acc.contains w then acc else acc ++ [w]) acc →
      x ∈ acc ∨ x ∈ l := by
  intro l
  induction l with
  | nil => intro acc x h; exact Or.inl h
  | cons c cs ih =>
    intro acc x h
    rcases ih _ x h with h1 | h2
    · by_cases hc : acc.contains c
      · simp only [hc, if_true] at h1
        exact Or.inl h1
      · simp only [hc, if_false] at h1
        rcases List.mem_append.mp h1 with ha | hb
        · exact Or.inl ha
        · exact Or.inr (List.mem_cons.mpr (Or.inl (List.mem_singleton.mp hb)))
    · exact Or.inr (List.mem_cons_of_mem _ h2)

theorem firstOccs_subset (l : List String) (w : String)
    (h : w ∈ firstOccs l) : w ∈ l := by
  rcases mem_foldl_firstOccs l [] w h with h1 | h2
  · cases h1
  · exact h2

theorem mem_extract_keywords (text : String) (n : ℕ) (w : String)
    (h : w ∈ extract_keywords text n) :
    w ∈ tokens3 (pyLower text) ∧ w ∉ STOP_WORDS := by
  unfold extract_keywords mostCommon at h
  have h1 := (List.take_sublist n _).mem h
  have h2 := (List.perm_insertionSort _ _).mem_iff.mp h1
  have h3 := firstOccs_subset _ _ h2
  have h4 := List.mem_filter.mp h3
  refine ⟨h4.1, ?_⟩
  intro hw
  have hb : STOP_WORDS.elem w = true := List.elem_iff.mpr hw
  have hb2 := h4.2
  rw [show STOP_WORDS.contains w = STOP_WORDS.elem w from rfl, hb] at hb2
  simp at hb2

theorem extract_keywords_length_le (text : String) (n : ℕ) :
    (extract_keywords text n).length ≤ n := by
  unfold extract_keywords mostCommon
  exact List.length_take_le n _

theorem extract_keywords_sorted (text : String) (n : ℕ) :
    (extract_keywords text n).Pairwise
      (fun a b =>
        ((tokens3 (pyLower text)).filter (fun w => !STOP_WORDS.contains w)).count b ≤
        ((tokens3 (pyLower text)).filter (fun w => !STOP_WORDS.contains w)).count a) := by
  unfold extract_keywords mostCommon
  set l := (tokens3 (pyLower text)).filter (fun w => !STOP_WORDS.contains w) with hl
  haveI : IsTotal String (fun a b => l.count b ≤ l.count a) :=
    ⟨fun a b => le_total (l.count b) (l.count a)⟩
  haveI : IsTrans String (fun a b => l.count b ≤ l.count a) :=
    ⟨fun _ _ _ hab hbc => le_trans hbc hab⟩
  exact List.Pairwise.sublist (List.take_sublist n _)
    (List.sorted_insertionSort _ _)

theorem foldl_filter_map {α β : Type} (g : α → β) (P : α → Prop)
    [DecidablePred P] :
    ∀ (l : List α) (acc : List β),
      List.foldl (fun a x => if P x then a ++ [g x] else a) acc l =
        acc ++ (l.filter (fun x => P x)).map g := by
  intro l
  induction l with
  | nil => intro acc; simp
  | cons c cs ih =>
    intro acc
    by_cases hc : P c <;>
      simp [List.foldl_cons, hc, ih, List.filter_cons]

theorem generate_explanation_match_level (q : String) (qkw : List String)
    (book : BookRecord) (s : ℚ) :
    (generate_explanation q qkw book s).match_level =
      if 0.75 < s then "Excellent" else if 0.55 < s then "Good" else "Fair" := by
  unfold generate_explanation
  dsimp only
  by_cases h1 : (0.75 : ℚ) < s
  · simp [h1]
  · by_cases h2 : (0.55 : ℚ) < s <;> simp [h1, h2]

theorem generate_explanation_themes (q : String) (qkw : List String)
    (book : BookRecord) (s : ℚ) :
    (generate_explanation q qkw book s).themes =
      (let combined := pyLower q ++ " " ++ pyLower (strOf book.description)
       let det := (theme_keywords.filter
          (fun p => 2 ≤ (p.2.filter (fun kw => pyIn kw combined)).length)).map
          (fun p => pyCapitalize p.1)
       if det.isEmpty then ["General Fiction"] else det.take 3) := by
  unfold generate_explanation
  dsimp only
  rw [foldl_filter_map (fun p : String × List String => pyCapitalize p.1)
    (fun p : String × List String =>
      2 ≤ (p.2.filter (fun kw =>
        pyIn kw (pyLower q ++ " " ++ pyLower (strOf book.description)))).length)
    theme_keywords []]
  rw [List.nil_append]
  set det := (theme_keywords.filter
      (fun p => 2 ≤ (p.2.filter (fun kw =>
        pyIn kw (pyLower q ++ " " ++ pyLower (strOf book.description)))).length)).map
      (fun p => pyCapitalize p.1) with hdet
  by_cases hde : det.isEmpty <;> simp [hde]

/-! ### Claim theorems -/

/-- C1, counterexample: with a 2-book corpus and `k = 3`, `recommend_books`
returns **3** Recommendations, not the corpus size 2 — FAISS pads the
search result with id `-1` and a sentinel distance, and `iloc[-1]`
resolves the padding to the last corpus row ("B"). This refutes the claim
that for `k` greater than the corpus size exactly corpus-size
Recommendations are returned with no padding. -/
theorem c1_counterexample :
    (recommend_books (fun _ => 0)
        [⟨some "A", none, none, none⟩, ⟨some "B", none, none, none⟩]
        (.error ()) (.ok [0]) (fun _ => .ok [1, 2]) "mystery tale" 3).map
      (Option.map (List.map (fun r => (r.rank, r.title, r.distance)))) =
      .ok (some [(1, some "A", 1), (2, some "B", 2), (3, some "B", PAD_DIST)]) ∧
    ([(⟨some "A", none, none, none⟩ : BookRecord),
      ⟨some "B", none, none, none⟩] : List BookRecord).length = 2 :=
  ⟨rfl, rfl⟩

/-- C1, amended: for every query and every `k` strictly greater than the
size of a non-empty corpus, `recommend_books` raises no error and returns
exactly `k` Recommendations — the corpus-size genuine rows followed by
FAISS padding entries (id `-1`, resolved to the last corpus row). -/
theorem c1_amended (expF : ℚ → ℚ) (corpus : List BookRecord)
    (detectRes : Except Unit String) (emb dists : List ℚ) (query : String)
    (k : ℕ) (hne : corpus ≠ []) (hlen : dists.length = corpus.length)
    (hk : corpus.length < k) :
    ∃ recs, recommend_books expF corpus detectRes (.ok emb)
        (fun _ => .ok dists) query k = .ok (some recs) ∧ recs.length = k := by
  have hvalid : ∀ p ∈ faissSearch dists k, (ilocGet corpus p.1).isSome := by
    intro p hp
    rcases mem_faissSearch dists k p hp with ⟨h0, h1⟩ | heq
    · rw [hlen] at h1
      exact ilocGet_isSome_of_range corpus p.1 h0 h1
    · rw [heq]
      exact ilocGet_neg_one_isSome corpus hne
  obtain ⟨recs, hr, hlen2, -, -⟩ :=
    buildRecs_shape expF corpus query (detect_language detectRes)
      (extract_keywords query 8) (faissSearch dists k) 0 hvalid
  refine ⟨recs, ?_, ?_⟩
  · unfold recommend_books recommendPure
    dsimp only
    rw [hr]
  · rw [hlen2, faissSearch_length]

/-- C1 witness: a 1-book corpus queried with `k = 3` yields 3 results. -/
theorem c1_witness :
    ∃ recs, recommend_books (fun _ => 0) [⟨some "A", none, none, none⟩]
        (.error ()) (.ok []) (fun _ => .ok [1]) "q" 3 = .ok (some recs) ∧
      recs.length = 3 :=
  c1_amended (fun _ => 0) [⟨some "A", none, none, none⟩] (.error ()) [] [1]
    "q" 3 (by decide) (by decide) (by decide)

/-- C2: for `1 ≤ k ≤ corpus size`, `recommend_books` returns exactly `k`
Recommendations, with rank fields `1..k` in order (no gaps or duplicates)
and distance fields non-decreasing from rank 1 to rank `k`. -/
theorem c2_ranks_and_distances (expF : ℚ → ℚ) (corpus : List BookRecord)
    (detectRes : Except Unit String) (emb dists : List ℚ) (query : String)
    (k : ℕ) (hlen : dists.length = corpus.length) (hk1 : 1 ≤ k)
    (hk2 : k ≤ corpus.length) :
    ∃ recs, recommend_books expF corpus detectRes (.ok emb)
        (fun _ => .ok dists) query k = .ok (some recs) ∧
      recs.length = k ∧
      recs.map Recommendation.rank = List.range' 1 k ∧
      (recs.map Recommendation.distance).Pairwise (· ≤ ·) := by
  have hkd : k ≤ dists.length := by omega
  have hvalid : ∀ p ∈ faissSearch dists k, (ilocGet corpus p.1).isSome := by
    intro p hp
    obtain ⟨h0, h1⟩ := mem_faissSearch_of_le dists k hkd p hp
    rw [hlen] at h1
    exact ilocGet_isSome_of_range corpus p.1 h0 h1
  obtain ⟨recs, hr, hlen2, hrank, hdist⟩ :=
    buildRecs_shape expF corpus query (detect_language detectRes)
      (extract_keywords query 8) (faissSearch dists k) 0 hvalid
  refine ⟨recs, ?_, ?_, ?_, ?_⟩
  · unfold recommend_books recommendPure
    dsimp only
    rw [hr]
  · rw [hlen2, faissSearch_length]
  · rw [hrank, faissSearch_length]
  · rw [hdist]
    exact faissSearch_snd_pairwise dists k hkd

/-- C2 witness: a 2-book corpus at distances `[2, 1]` queried with `k = 2`
gives ranks `[1, 2]` and non-decreasing distances. -/
theorem c2_witness :
    ∃ recs, recommend_books (fun _ => 0)
        [⟨some "A", none, none, none⟩, ⟨some "B", none, none, none⟩]
        (.error ()) (.ok []) (fun _ => .ok [2, 1]) "q" 2 = .ok (some recs) ∧
      recs.length = 2 ∧
      recs.map Recommendation.rank = List.range' 1 2 ∧
      (recs.map Recommendation.distance).Pairwise (· ≤ ·) :=
  c2_ranks_and_distances (fun _ => 0)
    [⟨some "A", none, none, none⟩, ⟨some "B", none, none, none⟩]
    (.error ()) [] [2, 1] "q" 2 (by decide) (by decide) (by decide)

/-- C3: every Recommendation returned by `recommend_books` has
`similarity_score = expF (-distance / 10)` where `expF` models `np.exp`
and the scale constant is fixed at 10 — both fields are derived from the
same raw distance. -/
theorem c3_similarity (expF : ℚ → ℚ) (corpus : List BookRecord)
    (detectRes : Except Unit String) (emb dists : List ℚ) (query : String)
    (k : ℕ) (recs : List Recommendation)
    (h : recommend_books expF corpus detectRes (.ok emb)
        (fun _ => .ok dists) query k = .ok (some recs))
    (r : Recommendation) (hr : r ∈ recs) :
    r.similarity_score = expF (-r.distance / 10) := by
  unfold recommend_books at h
  have h2 : recommendPure expF corpus detectRes query dists k = some recs := by
    injection h
  unfold recommendPure at h2
  exact buildRecs_sim expF corpus query (detect_language detectRes)
    (extract_keywords query 8) (faissSearch dists k) 0 recs h2 r hr

/-- C3 witness: in the concrete one-book run `recsC3` (identity for
`np.exp`, distance 2), the returned Recommendation satisfies
`similarity_score = -distance / 10`. -/
theorem c3_witness :
    ∃ r, r ∈ recsC3 ∧ r.similarity_score = -r.distance / 10 :=
  ⟨recsC3.get ⟨0, by decide⟩, List.get_mem recsC3 0 (by decide),
    c3_similarity (fun d => d) [⟨some "A", none, none, none⟩] (.error ())
      [] [2] "a gripping tale" 1 recsC3 rfl _
      (List.get_mem recsC3 0 (by decide))⟩

/-- C4: the Explanation's `match_level` is "Excellent" iff the similarity
score exceeds 0.75, "Good" iff it is in (0.55, 0.75], and "Fair" iff it is
at most 0.55; in particular 0.76 → "Excellent", 0.75 → "Good",
0.56 → "Good", 0.55 → "Fair". -/
theorem c4_match_tiers (q : String) (qkw : List String) (book : BookRecord) :
    ∀ s : ℚ,
      ((generate_explanation q qkw book s).match_level = "Excellent" ↔ 0.75 < s) ∧
      ((generate_explanation q qkw book s).match_level = "Good" ↔
        (0.55 < s ∧ s ≤ 0.75)) ∧
      ((generate_explanation q qkw book s).match_level = "Fair" ↔ s ≤ 0.55) ∧
      (generate_explanation q qkw book 0.76).match_level = "Excellent" ∧
      (generate_explanation q qkw book 0.75).match_level = "Good" ∧
      (generate_explanation q qkw book 0.56).match_level = "Good" ∧
      (generate_explanation q qkw book 0.55).match_level = "Fair" := by
  intro s
  have key := generate_explanation_match_level q qkw book
  refine ⟨?_, ?_, ?_, ?_, ?_, ?_, ?_⟩
  · rw [key]
    split_ifs with h1 h2 <;> simp [h1]
  · rw [key]
    split_ifs with h1 h2
    · simp [not_le.mpr h1]
    · simp [h2, not_lt.mp h1]
    · simp [h2]
  · rw [key]
    split_ifs with h1 h2
    · simp [not_le.mpr (show (0.55 : ℚ) < s by linarith)]
    · simp [not_le.mpr h2]
    · simp [not_lt.mp h2]
  · rw [key]
    norm_num
  · rw [key]
    norm_num
  · rw [key]
    norm_num
  · rw [key]
    norm_num

/-- C5, counterexample: an embedder failure and an index-search failure
carrying the same underlying exception produce **identical** results from
`recommend_books` — the error reaching the caller is the unchanged library
exception with no stage tag, so the two stages are not distinguishable,
refuting the claim of a typed error naming the failed stage. -/
theorem c5_counterexample :
    recommend_books (fun _ => 0) [] (.error ()) (.error "boom")
        (fun _ => .ok []) "q" 1 =
      recommend_books (fun _ => 0) [] (.error ()) (.ok [])
        (fun _ => .error "boom") "q" 1 ∧
    recommend_books (fun _ => 0) [] (.error ()) (.error "boom")
        (fun _ => .ok []) "q" 1 = .error "boom" :=
  ⟨rfl, rfl⟩

/-- C5, amended: when the embedder call or the index search fails inside
`recommend_books`, the failure propagates to the caller as the unchanged
underlying exception — the call catches nothing and adds no stage-naming
wrapper, so an embedder failure and an index failure with the same
underlying exception are indistinguishable. -/
theorem c5_amended (expF : ℚ → ℚ) (corpus : List BookRecord)
    (detectRes : Except Unit String) (query : String) (k : ℕ) (e : String)
    (indexF : List ℚ → Except String (List ℚ)) (emb : List ℚ) :
    recommend_books expF corpus detectRes (.error e) indexF query k =
      .error e ∧
    recommend_books expF corpus detectRes (.ok emb) (fun _ => .error e)
      query k = .error e :=
  ⟨rfl, rfl⟩

/-- C6: `detect_language` never raises — it is a total function that, on
any detector failure, returns the fixed default `("en", "English")` and,
on detector success, returns the detected code with its mapped display
name (`LANGUAGE_NAMES`, falling back to the capitalized code); and
`recommend_books` never fails because of language detection: whatever the
detector outcome, the call succeeds whenever embedding and index search
succeed. -/
theorem c6_language_fallback :
    detect_language (.error ()) = ("en", "English") ∧
    (∀ code, detect_language (.ok code) =
      (code, (LANGUAGE_NAMES.lookup code).getD (pyCapitalize code))) ∧
    (∀ (expF : ℚ → ℚ) (corpus : List BookRecord)
      (detectRes : Except Unit String) (emb : List ℚ)
      (distsF : List ℚ → List ℚ) (query : String) (k : ℕ),
      ∃ o, recommend_books expF corpus detectRes (.ok emb)
        (fun v => .ok (distsF v)) query k = .ok o) :=
  ⟨rfl, fun _ => rfl, fun _ _ _ _ _ _ _ => ⟨_, rfl⟩⟩

/-- C7: a theme is listed in the Explanation's `themes` exactly when at
least 2 of its trigger words occur as substrings of the lowercased query
joined with the lowercased description; detected themes are capitalized,
kept in table-iteration order and capped at 3, and when no theme reaches
the threshold the list is exactly `["General Fiction"]`. Concretely, a
description containing "murder", "detective" and "clue" yields "Mystery",
and a zero-match description yields `["General Fiction"]`. -/
theorem c7_themes :
    (∀ (q : String) (qkw : List String) (book : BookRecord) (s : ℚ),
      (generate_explanation q qkw book s).themes =
        (let combined := pyLower q ++ " " ++ pyLower (strOf book.description)
         let det := (theme_keywords.filter
            (fun p => 2 ≤ (p.2.filter (fun kw => pyIn kw combined)).length)).map
            (fun p => pyCapitalize p.1)
         if det.isEmpty then ["General Fiction"] else det.take 3)) ∧
    "Mystery" ∈ (generate_explanation "a whodunit" []
      ⟨none, none, some "Fiction",
        some "a murder case: the detective finds a clue"⟩ 0.8).themes ∧
    (generate_explanation "pleasant cooking" []
      ⟨none, none, some "Cooking", some "recipes for bread"⟩ 0.8).themes =
      ["General Fiction"] :=
  ⟨generate_explanation_themes, by decide, by decide⟩

/-- C8: `extract_keywords` on `"A Thrilling Mystery Story about a
Detective"` yields exactly `["thrilling", "mystery", "detective"]` (stop
words "a", "about", "story" excluded); in general it returns at most
`top_n` tokens, every returned token is a lowercased alphabetic run of
length ≥ 3 of the text that is not a stop word, and the returned tokens
are ordered by non-increasing frequency among the stop-word-filtered
tokens. -/
theorem c8_extract_keywords :
    extract_keywords "A Thrilling Mystery Story about a Detective" 8 =
      ["thrilling", "mystery", "detective"] ∧
    (∀ (text : String) (n : ℕ), (extract_keywords text n).length ≤ n) ∧
    (∀ (text : String) (n : ℕ) (w : String), w ∈ extract_keywords text n →
      w ∈ tokens3 (pyLower text) ∧ w ∉ STOP_WORDS) ∧
    (∀ (text : String) (n : ℕ), (extract_keywords text n).Pairwise
      (fun a b =>
        ((tokens3 (pyLower text)).filter (fun w => !STOP_WORDS.contains w)).count b ≤
        ((tokens3 (pyLower text)).filter (fun w => !STOP_WORDS.contains w)).count a)) :=
  ⟨by decide, extract_keywords_length_le, mem_extract_keywords,
    extract_keywords_sorted⟩

/-- C8 witness: the hypothesis-bearing conjunct applied at the concrete
example — "thrilling" is returned, is a token of the lowercased text and
is not a stop word. -/
theorem c8_witness :
    "thrilling" ∈ tokens3 (pyLower "A Thrilling Mystery Story about a Detective") ∧
    "thrilling" ∉ STOP_WORDS :=
  c8_extract_keywords.2.2.1 "A Thrilling Mystery Story about a Detective" 8
    "thrilling" (by decide)

/-- C9, counterexample: `search_by_title` does **not** perform literal
substring matching for every query — the query `"s.p"` returns the book
titled `"sap"` although `"s.p"` is not a substring of that title, because
pandas `str.contains` interprets the query as a regular expression. -/
theorem c9_counterexample :
    search_by_title [⟨some "sap", none, none, none⟩] "s.p" =
      .ok [⟨some "sap", none, none, none⟩] ∧
    pyIn (pyLower "s.p") (pyLower "sap") = false :=
  ⟨rfl, rfl⟩

/-- C9, amended: for every `title_query` free of regex metacharacters,
`search_by_title` returns exactly the records whose title contains the
query as a case-insensitive literal substring, in corpus scan order,
truncated to at most 5 records (the query is in general interpreted as a
regex pattern, so only metacharacter-free queries behave literally). -/
theorem c9_amended (corpus : List BookRecord) (q : String)
    (h : ∀ c ∈ (pyLower q).toList, c ∉ REGEX_META) :
    search_by_title corpus q = .ok (literalTitleSearch corpus q) ∧
    (literalTitleSearch corpus q).length ≤ 5 :=
  ⟨search_by_title_noMeta corpus q h, by
    unfold literalTitleSearch
    exact List.length_take_le 5 _⟩

/-- C9 witness: the query `"mockingbird"` (metacharacter-free) matches a
record titled `"To Kill a Mockingbird"` case-insensitively. -/
theorem c9_witness :
    search_by_title [⟨some "To Kill a Mockingbird", none, none, none⟩]
        "mockingbird" =
      .ok (literalTitleSearch
        [⟨some "To Kill a Mockingbird", none, none, none⟩] "mockingbird") ∧
    literalTitleSearch [⟨some "To Kill a Mockingbird", none, none, none⟩]
        "mockingbird" =
      [⟨some "To Kill a Mockingbird", none, none, none⟩] :=
  ⟨(c9_amended [⟨some "To Kill a Mockingbird", none, none, none⟩]
      "mockingbird" (by decide)).1, by decide⟩

/-- C10: `search_by_title` treats its argument as a regex pattern — the
query `"a.c"` matches a title `"abc"` that does not contain `"a.c"`
literally; the syntactically invalid pattern `"("` raises an error instead
of returning a list; a missing (NaN) title never matches (`na=False`); and
queries free of regex metacharacters behave exactly as literal
case-insensitive substring search. -/
theorem c10_regex_semantics :
    (search_by_title [⟨some "abc", none, none, none⟩] "a.c" =
        .ok [⟨some "abc", none, none, none⟩] ∧
      pyIn (pyLower "a.c") (pyLower "abc") = false) ∧
    search_by_title [⟨some "abc", none, none, none⟩] "(" = .error () ∧
    search_by_title [⟨none, none, none, none⟩] "nan" = .ok [] ∧
    (∀ (corpus : List BookRecord) (q : String),
      (∀ c ∈ (pyLower q).toList, c ∉ REGEX_META) →
      search_by_title corpus q = .ok (literalTitleSearch corpus q)) :=
  ⟨⟨rfl, rfl⟩, rfl, rfl, search_by_title_noMeta⟩

/-- C10 witness: the metacharacter-free query `"yz"` behaves as literal
substring search on a one-book corpus. -/
theorem c10_witness :
    search_by_title [⟨some "xyz", none, none, none⟩] "yz" =
      .ok (literalTitleSearch [⟨some "xyz", none, none, none⟩] "yz") :=
  c10_regex_semantics.2.2.2 [⟨some "xyz", none, none, none⟩] "yz"
    (by decide)

end BookRec
